import Mathlib

/-!
Shallow embedding, in Lean 4, of the decision core of the chat-automation bot
(files `src/chat_memory.py`, `src/chat_processor.py`, `src/bot.py`,
`src/partnership_actions.py`).  Every definition below is translated directly
from the Python source; external collaborators (OCR capture, LLM calls, mouse
clicks, logging) are modelled as input parameters or as emitted events.
Timestamps (Python `time.time()` / `datetime.now()` floats) are modelled as
rationals supplied explicitly by the caller; one call of an operation uses a
single `now` value for all its internal clock reads.
-/

set_option maxRecDepth 4000

unseal Rat.mul Rat.inv Rat.add Rat.sub

namespace ChatBotCore

/-- Python `str.strip` whitespace class restricted to ASCII whitespace. -/
def isPySpace (c : Char) : Bool :=
  c = ' ' ∨ c = '\t' ∨ c = '\n' ∨ c = '\r' ∨ c = '\x0b' ∨ c = '\x0c'

/-- Python `str.strip()` (leading and trailing whitespace removed). -/
def pyStripList (l : List Char) : List Char :=
  ((l.dropWhile isPySpace).reverse.dropWhile isPySpace).reverse

/-- Python `str.strip()` on `String`. -/
def pyStrip (s : String) : String :=
  ⟨pyStripList s.data⟩

/-! ## ChatMemory (`src/chat_memory.py`) -/

/-- `ChatMessage` dataclass (chat_memory.py lines 16-22).
The `datetime` timestamp is modelled as a rational supplied by the caller. -/
structure ChatMessage where
  role : String
  content : String
  timestamp : ℚ
  summary_trigger : Bool := false
deriving DecidableEq, Repr

/-- The `_pending_summarization` dict stored by `ChatMemory._trigger_summarization`
(chat_memory.py lines 104-108): prompt, old message count, remaining messages. -/
structure PendingSummarization where
  prompt : String
  old_messages_count : Nat
  remaining_messages : List ChatMessage
deriving DecidableEq, Repr

/-- State of a `ChatMemory` object (chat_memory.py lines 36-54).
The Python attribute `_pending_summarization` exists only after a trigger
(`hasattr` checks); it is modelled as an `Option`.  `last_summary_time`
(a `datetime` or `None`) is an `Option ℚ`. -/
structure ChatMemory where
  recent_limit : Nat := 12
  summary_trigger_limit : Nat := 20
  history : List ChatMessage := []
  summary : String := ""
  total_messages : Nat := 0
  summaries_created : Nat := 0
  last_summary_time : Option ℚ := none
  pending_summarization : Option PendingSummarization := none
deriving DecidableEq, Repr

namespace ChatMemory

/-- `ChatMemory._format_messages_for_summarization` (chat_memory.py 117-122):
`"\n".join(f"{msg.role}: {msg.content}")`. -/
def formatMessagesForSummarization (messages : List ChatMessage) : String :=
  String.intercalate "\n" (messages.map (fun msg => msg.role ++ ": " ++ msg.content))

/-- `ChatMemory._create_summarization_prompt` (chat_memory.py 124-137): the fixed
instruction template wrapping the formatted conversation. -/
def createSummarizationPrompt (conversation_text : String) : String :=
  "Summarize the key points of this conversation so far, keeping names and important facts. \nBe extremely concise (max 2-3 sentences). Focus on:\n\n1. Main topics discussed\n2. Important decisions or agreements\n3. Key information exchanged\n4. Current state of the conversation\n\nConversation:\n" ++ conversation_text ++ "\n\nSummary:"

/-- Mark the first message of a list with `summary_trigger := true`
(chat_memory.py 93-94: `remaining_messages[0].summary_trigger = True`). -/
def markFirstTrigger : List ChatMessage → List ChatMessage
  | [] => []
  | m :: rest => { m with summary_trigger := true } :: rest

/-- `ChatMemory._trigger_summarization` (chat_memory.py 77-115).  Splits the
oldest `len(history) - recent_limit` messages into a summarization request,
replaces the history with the remaining messages, and unconditionally stores
the new request in the (single) pending slot. -/
def triggerSummarization (now : ℚ) (mem : ChatMemory) : ChatMemory :=
  if mem.history = [] then mem
  else
    let messages_to_summarize : Int := (mem.history.length : Int) - (mem.recent_limit : Int)
    if messages_to_summarize ≤ 0 then mem
    else
      let n := messages_to_summarize.toNat
      let old_messages := mem.history.take n
      let remaining_messages := markFirstTrigger (mem.history.drop n)
      let conversation_text := formatMessagesForSummarization old_messages
      let summarization_prompt := createSummarizationPrompt conversation_text
      { mem with
          pending_summarization := some
            { prompt := summarization_prompt
              old_messages_count := old_messages.length
              remaining_messages := remaining_messages }
          history := remaining_messages
          summaries_created := mem.summaries_created + 1
          last_summary_time := some now }

/-- `ChatMemory.add_message` (chat_memory.py 56-75): append the message, bump the
counter, and trigger summarization once `len(history) >= summary_trigger_limit`. -/
def addMessage (now : ℚ) (role content : String) (mem : ChatMemory) : ChatMemory :=
  let message : ChatMessage := { role := role, content := content, timestamp := now }
  let mem := { mem with
                history := mem.history ++ [message]
                total_messages := mem.total_messages + 1 }
  if mem.history.length ≥ mem.summary_trigger_limit then
    triggerSummarization now mem
  else mem

/-- `ChatMemory._clean_summary` (chat_memory.py 165-178): strip, drop a leading
`"Summary:"` token, and cap at 1000 characters with a `"..."` tail. -/
def cleanSummary (summary : String) : String :=
  let summary := pyStrip summary
  let summary :=
    if summary.data.take 8 = "Summary:".data then pyStrip ⟨summary.data.drop 8⟩
    else summary
  if summary.data.length > 1000 then ⟨summary.data.take 997⟩ ++ "..."
  else summary

/-- `ChatMemory.process_summarization_result` (chat_memory.py 139-163).  With no
pending request it only logs a warning and returns; otherwise it appends the
cleaned summary to the cumulative summary and clears the pending slot. -/
def processSummarizationResult (summary : String) (mem : ChatMemory) : ChatMemory :=
  match mem.pending_summarization with
  | none => mem
  | some _ =>
      let cleaned_summary := cleanSummary summary
      { mem with
          summary :=
            if mem.summary ≠ "" then mem.summary ++ "\n\n" ++ cleaned_summary
            else cleaned_summary
          pending_summarization := none }

/-- `ChatMemory.clear` (chat_memory.py 204-215). -/
def clear (mem : ChatMemory) : ChatMemory :=
  { mem with
      history := []
      summary := ""
      total_messages := 0
      summaries_created := 0
      last_summary_time := none
      pending_summarization := none }

end ChatMemory

/-- A fresh `ChatMemory()` with the default limits (chat_memory.py 36-54). -/
def freshChatMemory : ChatMemory := {}

/-- Add `n` user messages `"m0", "m1", ...` at time 0 to a memory, in order
(repeated `add_message` calls). -/
def addMany (n : Nat) (mem : ChatMemory) : ChatMemory :=
  (List.range n).foldl (fun m i => ChatMemory.addMessage 0 "user" ("m" ++ toString i) m) mem

/-- The `i`-th message added by `addMany`. -/
def nthUserMessage (i : Nat) : ChatMessage :=
  { role := "user", content := "m" ++ toString i, timestamp := 0 }

end ChatBotCore

namespace ChatBotCore

/-! ## ChatProcessor (`src/chat_processor.py`) -/

/-- Python `str.lower()` restricted to the character ranges this pipeline
manipulates: ASCII Latin letters and the Cyrillic block (`А`-`Я` → `а`-`я`,
`Ѐ`-`Џ` → `ѐ`-`џ`, which covers `Ё` → `ё` and `І` → `і`).  All other
characters are unchanged, as in Python for non-cased characters. -/
def pyLowerChar (c : Char) : Char :=
  if 'A' ≤ c ∧ c ≤ 'Z' then Char.ofNat (c.toNat + 32)
  else if 0x410 ≤ c.toNat ∧ c.toNat ≤ 0x42F then Char.ofNat (c.toNat + 0x20)
  else if 0x400 ≤ c.toNat ∧ c.toNat ≤ 0x40F then Char.ofNat (c.toNat + 0x50)
  else c

/-- Python `str.lower()` on a `String` (see `pyLowerChar`). -/
def pyLowerStr (s : String) : String :=
  ⟨s.data.map pyLowerChar⟩

/-- The `char_map` OCR-correction table of `ChatProcessor.__init__`
(chat_processor.py 102-136): visually similar Cyrillic letters and digits
mapped to their Latin look-alikes; all other characters unchanged. -/
def charMapFn : Char → Char
  | 'А' => 'A' | 'В' => 'B' | 'С' => 'C' | 'Е' => 'E' | 'Н' => 'H'
  | 'К' => 'K' | 'М' => 'M' | 'О' => 'O' | 'Р' => 'P' | 'Т' => 'T'
  | 'Х' => 'X' | 'У' => 'Y' | 'І' => 'I'
  | 'а' => 'a' | 'с' => 'c' | 'е' => 'e' | 'к' => 'k' | 'о' => 'o'
  | 'р' => 'p' | 'х' => 'x' | 'у' => 'y' | 'і' => 'i'
  | '0' => 'O' | '1' => 'I' | '2' => 'Z' | '3' => 'E' | '4' => 'A'
  | '5' => 'S' | '6' => 'G' | '7' => 'T' | '8' => 'B'
  | c => c

/-- `ChatProcessor._normalize_nick` (chat_processor.py 167-181): apply the
`char_map` substitution to every character, then lowercase. -/
def normalizeNick (nick : List Char) : List Char :=
  (nick.map charMapFn).map pyLowerChar

/-- Characters legal in a nickname: `[A-Za-z0-9_-]` (chat_processor.py 320). -/
def isNickChar (c : Char) : Bool :=
  ('A' ≤ c ∧ c ≤ 'Z') ∨ ('a' ≤ c ∧ c ≤ 'z') ∨ ('0' ≤ c ∧ c ≤ '9') ∨ c = '_' ∨ c = '-'

/-- The remainder of `l` after the first occurrence of `d`, or `none` if `d`
does not occur (helper for the non-greedy bracket regex). -/
def afterFirst (d : Char) : List Char → Option (List Char)
  | [] => none
  | c :: rest => if c = d then some rest else afterFirst d rest

/-- `re.sub(r'\[.*?\]|\(.*?\)', '', s)` on a single line (chat_processor.py 312):
each `[`…`]` or `(`…`)` span (non-greedy, so up to the nearest closing
bracket) is removed; an unmatched opening bracket is kept.  Lines contain no
newline, so the regex `.` restriction is vacuous.  `fuel ≥ length` suffices. -/
def stripBracketSpans : Nat → List Char → List Char
  | 0, l => l
  | _, [] => []
  | fuel+1, c :: rest =>
    if c = '[' then
      match afterFirst ']' rest with
      | some after => stripBracketSpans fuel after
      | none => c :: stripBracketSpans fuel rest
    else if c = '(' then
      match afterFirst ')' rest with
      | some after => stripBracketSpans fuel after
      | none => c :: stripBracketSpans fuel rest
    else c :: stripBracketSpans fuel rest

/-- Python `str.splitlines()` for the `\n`, `\r` and `\r\n` terminators (the
pipeline's OCR input uses `\n`): no trailing empty line for a trailing
terminator. -/
def splitLinesAux : List Char → List Char → List (List Char)
  | [], cur => if cur = [] then [] else [cur.reverse]
  | '\r' :: '\n' :: rest, cur => cur.reverse :: splitLinesAux rest []
  | '\n' :: rest, cur => cur.reverse :: splitLinesAux rest []
  | '\r' :: rest, cur => cur.reverse :: splitLinesAux rest []
  | c :: rest, cur => splitLinesAux rest (c :: cur)

/-- Python `str.splitlines()` on a character list. -/
def splitLinesList (l : List Char) : List (List Char) :=
  splitLinesAux l []

/-- `normalize_ocr_text` (utils.py 66-79): empty input gives `""`, otherwise
remove every `` ` `` and `’`, then strip. -/
def normalizeOcrText (l : List Char) : List Char :=
  if l = [] then []
  else pyStripList (l.filter (fun c => c ≠ '`' ∧ c ≠ '’'))

/-- Python `str.find` for a single character: index of the first occurrence,
`none` standing for Python's `-1`. -/
def pyFindChar (d : Char) : List Char → Option Nat
  | [] => none
  | c :: rest =>
    if c = d then some 0
    else (pyFindChar d rest).map (· + 1)

/-- Characters kept by `ChatProcessor._clean_text`'s regex
`[A-Za-zА-Яа-яЁё0-9\s.,!?-]` (chat_processor.py 217). -/
def isHashKeepChar (c : Char) : Bool :=
  ('A' ≤ c ∧ c ≤ 'Z') ∨ ('a' ≤ c ∧ c ≤ 'z') ∨
  (0x410 ≤ c.toNat ∧ c.toNat ≤ 0x42F) ∨ (0x430 ≤ c.toNat ∧ c.toNat ≤ 0x44F) ∨
  c = 'Ё' ∨ c = 'ё' ∨ ('0' ≤ c ∧ c ≤ '9') ∨ isPySpace c ∨
  c = '.' ∨ c = ',' ∨ c = '!' ∨ c = '?' ∨ c = '-'

/-- `ChatProcessor._clean_text` (chat_processor.py 207-217): keep only the
essential characters, strip, lowercase. -/
def cleanTextForHash (l : List Char) : List Char :=
  (pyStripList (l.filter isHashKeepChar)).map pyLowerChar

/-- `ChatProcessor._make_message_hash` (chat_processor.py 219-233).  The MD5
digest of `f"{author_clean}:{message_clean}"` is modelled by the digested
string itself (MD5 is injective on the inputs considered, so dedup behaviour
is identical). -/
def makeMessageHash (author message : List Char) : String :=
  ⟨(pyStripList author).map pyLowerChar⟩ ++ ":" ++ (⟨cleanTextForHash message⟩ : String)

/-- Length of the common run of equal characters at the head of two lists. -/
def commonRun : List Char → List Char → Nat
  | a :: as, b :: bs => if a = b then commonRun as bs + 1 else 0
  | _, _ => 0

/-- `difflib.SequenceMatcher.find_longest_match` on the whole sequences, for
the junk-free case (with no junk argument, autojunk only activates on
sequences of ≥ 200 elements; every nickname compared here is far shorter):
the longest matching block, earliest in `a`, then earliest in `b`, returned as
`(i, j, size)`. -/
def findLongestMatch (a b : List Char) : Nat × Nat × Nat :=
  (List.range a.length).foldl (fun best i =>
    (List.range b.length).foldl (fun best j =>
      let k := commonRun (a.drop i) (b.drop j)
      if k > best.2.2 then (i, j, k) else best) best) (0, 0, 0)

/-- Total size of the matching blocks of `difflib.SequenceMatcher`
(`get_matching_blocks`): recursively split around the longest match.  The fuel
`a.length + 1` always suffices since each recursive call strictly shortens the
first sequence. -/
def matchingTotal : Nat → List Char → List Char → Nat
  | 0, _, _ => 0
  | fuel+1, a, b =>
    let m := findLongestMatch a b
    if m.2.2 = 0 then 0
    else
      matchingTotal fuel (a.take m.1) (b.take m.2.1) + m.2.2 +
        matchingTotal fuel (a.drop (m.1 + m.2.2)) (b.drop (m.2.1 + m.2.2))

/-- Matching-block total with sufficient fuel. -/
def seqMatches (a b : List Char) : Nat :=
  matchingTotal (a.length + 1) a b

/-- `difflib.SequenceMatcher(None, a, b).ratio()`: `2*M/T` where `M` is the
total matched size and `T` the combined length (`1.0` when `T = 0`).  The
rational value coincides with the Python float for the short strings compared
here. -/
def ratioOf (a b : List Char) : ℚ :=
  let t := a.length + b.length
  if t = 0 then 1 else 2 * (seqMatches a b : ℚ) / (t : ℚ)

/-- The candidate scan of `ChatProcessor._fuzzy_match_nick`
(chat_processor.py 192-199): walk every known nick keeping the strictly best
similarity ratio, starting from the acceptance threshold `0.7`; the best match
stays `none` if no ratio exceeded `0.7`.  The Python `set` of known nicks is
modelled as a list (iteration order only matters on exact ratio ties). -/
def fuzzyBest (l : String) (allKnown : List String) : ℚ × Option String :=
  allKnown.foldl (fun (best : ℚ × Option String) known =>
    let r := ratioOf l.data known.data
    if r > best.1 then (r, some known) else best) ((7 : ℚ)/10, none)

/-- `ChatProcessor._fuzzy_match_nick` (chat_processor.py 183-205): exact
membership wins immediately; otherwise the threshold scan `fuzzyBest`. -/
def fuzzyMatchNick (allKnown : List String) (ocrNick : String) : Option String :=
  let l := pyLowerStr ocrNick
  if l ∈ allKnown then some l
  else (fuzzyBest l allKnown).2

/-- One entry of `ChatProcessor.last_messages`: `(hash, timestamp)`. -/
abbrev DedupEntry := String × ℚ

/-- The mutable state of a `ChatProcessor` used by `get_new_messages`
(chat_processor.py 88-97): normalized nick sets and the rolling dedup window
(a deque with `maxlen=5`, modelled as a list of at most 5 entries). -/
structure ProcState where
  ignore_nicks : List String
  target_nicks : List String
  all_known_nicks : List String
  last_messages : List DedupEntry
deriving DecidableEq, Repr

/-- `ChatProcessor.__init__` nick handling (chat_processor.py 88-91):
strip+lowercase both lists, `all_known_nicks` is their union. -/
def mkProcState (ignore target : List String) : ProcState :=
  let ig := ignore.map (fun n => (⟨(pyStripList n.data).map pyLowerChar⟩ : String))
  let tg := target.map (fun n => (⟨(pyStripList n.data).map pyLowerChar⟩ : String))
  { ignore_nicks := ig
    target_nicks := tg
    all_known_nicks := ig ++ tg.filter (fun n => n ∉ ig)
    last_messages := [] }

/-- The TTL prune of `_is_recent_duplicate` (chat_processor.py 242-245): keep
entries with `now - t < 120`. -/
def pruneOld (now : ℚ) (msgs : List DedupEntry) : List DedupEntry :=
  msgs.filter (fun p => now - p.2 < 120)

/-- Append to the dedup deque, dropping the oldest entry beyond `maxlen=5`. -/
def appendDeque (l : List DedupEntry) (x : DedupEntry) : List DedupEntry :=
  let l' := l ++ [x]
  l'.drop (l'.length - 5)

/-- A message record returned by `get_new_messages`
(`{'author': ..., 'message': ...}`, chat_processor.py 350). -/
structure MsgRec where
  author : String
  message : String
deriving DecidableEq, Repr

/-- The state-independent classification of one OCR line inside
`get_new_messages` (chat_processor.py 273-333). -/
inductive LineClass
  /-- Line skipped (too short, separator too far, empty message part, or bad
  nick length); the previous-message anchor is left untouched. -/
  | skipKeepLast
  /-- No `:`/`;` separator: candidate continuation text to merge into the
  previous message if one exists in this tick, otherwise dropped as garbage. -/
  | continuation (txt : List Char)
  /-- Nick cleaned but unresolved: a potential new nick. -/
  | unresolved (tok : String)
  /-- Nick resolved to a canonical known nick, with the message part. -/
  | resolved (canonical : String) (msg : List Char)
deriving DecidableEq, Repr

/-- Classify one raw line exactly as the loop body of `get_new_messages`
does before its dedup/record step (chat_processor.py 273-333). -/
def classifyLine (allKnown : List String) (rawLine : List Char) : LineClass :=
  let line := pyStripList rawLine
  if line.length < 5 then .skipKeepLast
  else
    let nl := normalizeOcrText line
    match (pyFindChar ':' nl).orElse (fun _ => pyFindChar ';' nl) with
    | none => .continuation (pyStripList nl)
    | some idx =>
      if idx > 25 then .skipKeepLast
      else
        let rawNick := nl.take idx
        let messagePart := pyStripList (nl.drop (idx + 1))
        if messagePart = [] then .skipKeepLast
        else
          let cleaned :=
            ((stripBracketSpans rawNick.length rawNick).filter (fun c => c ≠ ' ')).filter
              isNickChar
          if cleaned.length < 3 ∨ cleaned.length > 20 then .skipKeepLast
          else
            let processed : String := ⟨normalizeNick cleaned⟩
            match fuzzyMatchNick allKnown processed with
            | none => .unresolved processed
            | some canonical => .resolved canonical messagePart

/-- Loop accumulator of `get_new_messages`: messages found so far, potential
new nicks, whether `last_message` currently points at the last found record,
and the processor state. -/
structure IngestAcc where
  found : List MsgRec
  potential : List String
  lastActive : Bool
  ps : ProcState
deriving DecidableEq, Repr

/-- Apply `f` to the last element of a list (the record `last_message` aliases). -/
def modifyLast (f : MsgRec → MsgRec) : List MsgRec → List MsgRec
  | [] => []
  | [m] => [f m]
  | m :: rest => m :: modifyLast f rest

/-- `set.add` on the potential-new-nicks set, modelled as an ordered list. -/
def addPotential (tok : String) (l : List String) : List String :=
  if tok ∈ l then l else l ++ [tok]

/-- One iteration of the `get_new_messages` line loop
(chat_processor.py 273-352): classification, then deduplication (which prunes
the window as a side effect), then the ignore/target bookkeeping. -/
def stepLine (now : ℚ) (acc : IngestAcc) (rawLine : List Char) : IngestAcc :=
  match classifyLine acc.ps.all_known_nicks rawLine with
  | .skipKeepLast => acc
  | .continuation txt =>
      if acc.lastActive then
        { acc with
            found := modifyLast
              (fun m => { m with message := m.message ++ " " ++ (⟨txt⟩ : String) }) acc.found }
      else acc
  | .unresolved tok =>
      { acc with potential := addPotential tok acc.potential, lastActive := false }
  | .resolved canonical msg =>
      let h := makeMessageHash canonical.data msg
      let pruned := pruneOld now acc.ps.last_messages
      let ps := { acc.ps with last_messages := pruned }
      if pruned.any (fun p => p.1 = h) then
        { acc with ps := ps, lastActive := false }
      else if canonical ∈ ps.ignore_nicks then
        { acc with
            ps := { ps with last_messages := appendDeque pruned (h, now) }
            lastActive := false }
      else if canonical ∈ ps.target_nicks then
        { acc with
            found := acc.found ++ [{ author := canonical, message := (⟨msg⟩ : String) }]
            ps := { ps with last_messages := appendDeque pruned (h, now) }
            lastActive := true }
      else { acc with ps := ps }

/-- `ChatProcessor.get_new_messages` (chat_processor.py 249-356): split the OCR
text into lines, process each line, and return the found messages reversed,
the potential new nicks, and the updated processor state.  The `time.time()`
reads of one call are modelled by the single parameter `now`. -/
def getNewMessages (now : ℚ) (st : ProcState) (text : String) :
    List MsgRec × List String × ProcState :=
  if text = "" then ([], [], st)
  else
    let lines := splitLinesList (pyStripList text.data)
    let acc := lines.foldl (stepLine now) ⟨[], [], false, st⟩
    (acc.found.reverse, acc.potential, acc.ps)

/-! ## Language detection (`ChatProcessor.detect_language`, chat_processor.py 397-477) -/

/-- `LANG_MARKERS['fr']['words']` (chat_processor.py 56). -/
def frWords : List String :=
  ["est", "et", "le", "la", "les", "des", "un", "une", "je", "vous", "nous", "pour",
   "avec", "mais", "pas", "c'est", "ça"]

/-- `LANG_MARKERS['es']['words']` (chat_processor.py 60). -/
def esWords : List String :=
  ["el", "la", "los", "las", "un", "una", "y", "es", "que", "en", "por", "para",
   "con", "del", "lo", "mi", "su"]

/-- `LANG_MARKERS['en']['words']` (chat_processor.py 64). -/
def enWords : List String :=
  ["the", "and", "is", "it", "to", "for", "with", "you", "are", "this", "that",
   "not", "have"]

/-- `LANG_MARKERS['it']['words']` (chat_processor.py 67). -/
def itWords : List String :=
  ["il", "la", "i", "le", "un", "una", "e", "è", "di", "a", "in", "che", "non",
   "per", "con", "su", "mi", "ti", "si"]

/-- `LANG_MARKERS['de']['words']` (chat_processor.py 71). -/
def deWords : List String :=
  ["der", "die", "das", "den", "dem", "des", "ein", "eine", "einer", "einem",
   "einen", "und", "ist", "mit", "für", "von", "zu", "dass", "nicht"]

/-- `LANG_MARKERS['es']['chars']` (chat_processor.py 61). -/
def esChars : List Char := ['ñ', '¿', '¡', 'á', 'é', 'í', 'ó', 'ú']

/-- `LANG_MARKERS['it']['chars']` (chat_processor.py 68). -/
def itChars : List Char := ['à', 'è', 'é', 'ì', 'ò', 'ù']

/-- `LANG_MARKERS['de']['chars']` (chat_processor.py 72). -/
def deChars : List Char := ['ä', 'ö', 'ü', 'ß']

/-- The character class kept by `detect_language`'s cleaning regex
`[^a-zA-Zа-яА-ЯёЁñáéíóúüçàâêèéëîïôûùœæ¿¡]` (chat_processor.py 411). -/
def langKeepChar (c : Char) : Bool :=
  ('a' ≤ c ∧ c ≤ 'z') ∨ ('A' ≤ c ∧ c ≤ 'Z') ∨
  (0x430 ≤ c.toNat ∧ c.toNat ≤ 0x44F) ∨ (0x410 ≤ c.toNat ∧ c.toNat ≤ 0x42F) ∨
  c = 'ё' ∨ c = 'Ё' ∨ c ∈ "ñáéíóúüçàâêèéëîïôûùœæ¿¡".data

/-- The cleaning step of `detect_language` (chat_processor.py 411):
`re.sub(r'[^...]', ' ', text.lower())` — lowercase, then replace every
character outside the kept class by a space. -/
def langCleanedText (text : String) : List Char :=
  (text.data.map pyLowerChar).map (fun c => if langKeepChar c then c else ' ')

/-- The Cyrillic class `[а-яА-ЯёЁ]` (chat_processor.py 415). -/
def isCyrChar (c : Char) : Bool :=
  (0x430 ≤ c.toNat ∧ c.toNat ≤ 0x44F) ∨ (0x410 ≤ c.toNat ∧ c.toNat ≤ 0x42F) ∨
  c = 'ё' ∨ c = 'Ё'

/-- Python `str.split()` (split on runs of whitespace, no empty words); the
cleaned text only contains `' '` as whitespace. -/
def splitWords (l : List Char) : List (List Char) :=
  (l.splitOnP isPySpace).filter (· ≠ [])

/-- Per-language dictionary scores (chat_processor.py 441-453): an `elif`
chain, so each word counts only for the first language list containing it, in
the order fr, es, en, it, de. -/
structure LangScores where
  fr : Nat := 0
  es : Nat := 0
  en : Nat := 0
  it : Nat := 0
  de : Nat := 0
deriving DecidableEq, Repr

/-- Score every word through the fr/es/en/it/de `elif` chain. -/
def scoreWords (words : List (List Char)) : LangScores :=
  words.foldl
    (fun sc w =>
      let s : String := ⟨w⟩
      if s ∈ frWords then { sc with fr := sc.fr + 1 }
      else if s ∈ esWords then { sc with es := sc.es + 1 }
      else if s ∈ enWords then { sc with en := sc.en + 1 }
      else if s ∈ itWords then { sc with it := sc.it + 1 }
      else if s ∈ deWords then { sc with de := sc.de + 1 }
      else sc)
    {}

/-- `max(scores, key=scores.get)` over the dict with insertion order
fr, es, en, it, de: the first language attaining the maximal score. -/
def bestLangScore (sc : LangScores) : String × Nat :=
  [("es", sc.es), ("en", sc.en), ("it", sc.it), ("de", sc.de)].foldl
    (fun best p => if p.2 > best.2 then p else best) ("fr", sc.fr)

/-- The `langdetect` fallback scan (chat_processor.py 467-473): walk the
probability-ordered candidates; for the first candidate in the supported set,
`prob > 0.9` is a confident result and `prob > 0.7` a tentative one, anything
else keeps scanning. -/
def scanLangs : List (String × ℚ) → Option (String × Bool)
  | [] => none
  | (lang, p) :: rest =>
    if lang ∈ (["fr", "es", "en", "it", "de"] : List String) then
      if p > 9/10 then some (lang, true)
      else if p > 7/10 then some (lang, false)
      else scanLangs rest
    else scanLangs rest

/-- `ChatProcessor.detect_language` (chat_processor.py 397-477): the cascading
classifier.  The external `langdetect.detect_langs` collaborator is passed in
as `oracle` (`none` models a `LangDetectException`). -/
def detectLanguage (oracle : String → Option (List (String × ℚ)))
    (text : String) (currentLang : String) : String × Bool :=
  if text = "" ∨ (pyStrip text).data.length < 2 then (currentLang, false)
  else
    let cleanText := langCleanedText text
    let words := splitWords cleanText
    let cyr := (cleanText.filter isCyrChar).length
    let total := (cleanText.filter (fun c => c ≠ ' ')).length
    if total > 0 ∧ (cyr : ℚ) / (total : ℚ) > 15/100 then
      ("ru", decide ((pyStrip text).data.length > 5) || decide (cyr > 2))
    else if esChars.any (· ∈ text.data) then
      ("es", decide ((pyStrip text).data.length > 10))
    else if 'ç' ∈ text.data ∨ 'œ' ∈ text.data then
      ("fr", decide ((pyStrip text).data.length > 10))
    else if itChars.any (· ∈ text.data) then
      ("it", decide ((pyStrip text).data.length > 10))
    else if deChars.any (· ∈ text.data) then
      ("de", decide ((pyStrip text).data.length > 10))
    else
      let best := bestLangScore (scoreWords words)
      if best.2 > 0 then
        (best.1,
          decide (best.2 ≥ 2) || (decide (best.2 = 1) &&
            decide ((pyStrip text).data.length > 20)))
      else if (pyStrip text).data.length > 15 then
        match oracle text with
        | some langs =>
          match scanLangs langs with
          | some r => r
          | none => ("en", false)
        | none => ("en", false)
      else ("en", false)

/-! ## Language switching with hysteresis (`ChatBot.handle_language_detection`,
bot.py 502-577) -/

/-- The language-related fields of the bot (bot.py 141-145 and the OCR
language setting). -/
structure LangState where
  current_language : String := "en"
  pending_new_language : Option String := none
  lang_consistency_counter : Nat := 0
  use_translation_layer : Bool := false
  ocr_language : String := "eng"
deriving DecidableEq, Repr

/-- The OCR-language table of the switch branch (bot.py 550-562). -/
def ocrLangFor (lang : String) : String :=
  if lang = "ru" then "eng+rus"
  else if lang = "fr" then "eng+fra"
  else if lang = "es" then "eng+spa"
  else if lang = "it" then "eng+ita"
  else if lang = "de" then "eng+deu"
  else "eng"

/-- The trailing always-run clause of `handle_language_detection`
(bot.py 571-577): force the translation layer on for a non-English active
language. -/
def finalTranslationClause (ls : LangState) : LangState :=
  if ls.current_language ≠ "en" ∧ ls.use_translation_layer = false then
    { ls with use_translation_layer := true }
  else ls

/-- `ChatBot.handle_language_detection` (bot.py 502-577): run the cascade,
switch immediately on a confident detection, otherwise require two consecutive
consistent non-confident detections (the hysteresis counter); on a switch
reset the counter, auto-enable translation for non-English, and update the
OCR language. -/
def handleLanguageDetection (oracle : String → Option (List (String × ℚ)))
    (message : String) (ls : LangState) : LangState :=
  let d := detectLanguage oracle message ls.current_language
  let detected := d.1
  let certain := d.2
  if detected ≠ ls.current_language then
    let step :=
      if certain then (true, ls)
      else
        let ls' :=
          if some detected = ls.pending_new_language then
            { ls with lang_consistency_counter := ls.lang_consistency_counter + 1 }
          else
            { ls with
                pending_new_language := some detected
                lang_consistency_counter := 1 }
        (decide (ls'.lang_consistency_counter ≥ 2), ls')
    let ls2 :=
      if step.1 then
        let switched :=
          { step.2 with
              current_language := detected
              lang_consistency_counter := 0
              pending_new_language := none }
        let switched :=
          if detected ≠ "en" ∧ switched.use_translation_layer = false then
            { switched with use_translation_layer := true }
          else switched
        { switched with ocr_language := ocrLangFor detected }
      else step.2
    finalTranslationClause ls2
  else
    finalTranslationClause
      { ls with lang_consistency_counter := 0, pending_new_language := none }

end ChatBotCore

namespace ChatBotCore

/-! ## Partnership and payment state (`src/bot.py`, `src/partnership_actions.py`) -/

/-- The `hooker_current_state` string values `'FREE' | 'WAITING_PAYMENT' | 'PAID'`
(bot.py 206); Python `None` is modelled by `Option`. -/
inductive HookerPhase
  | FREE
  | WAITING_PAYMENT
  | PAID
deriving DecidableEq, Repr

/-- The bot fields involved in partnership teardown and the Hooker-Mod payment
state machine (bot.py 120-220).  External collaborators (UI, clicks, OCR,
LLM) are not state. -/
structure BotState where
  partnership_active : Bool
  current_partner_nick : Option String
  auto_added_nicks_session : List String
  target_nicks : List String
  ignore_nicks : List String
  suggested_nicks : List String
  current_language : String
  first_message_sent : Bool
  last_message_time : ℚ
  hooker_current_state : Option HookerPhase
  hooker_timer_end : ℚ
  hooker_initial_amount : Int
  hooker_wait_start_time : ℚ
deriving DecidableEq, Repr

/-- The bot's state at `start_bot` (bot.py 274-281 resets on top of the
constructor defaults, bot.py 120-220): no partnership, no partner, empty
session sets, English, payment machine off. -/
def initialBotState : BotState :=
  { partnership_active := false
    current_partner_nick := none
    auto_added_nicks_session := []
    target_nicks := []
    ignore_nicks := []
    suggested_nicks := []
    current_language := "en"
    first_message_sent := false
    last_message_time := 0
    hooker_current_state := none
    hooker_timer_end := 0
    hooker_initial_amount := 0
    hooker_wait_start_time := 0 }

/-- The Hooker-Mod configuration (bot_settings.py 93-99, read-only during a
session).  Note the success message is stored as `hooker_hiwaifu_message`;
the payment logic never reads it — bot.py 954 reads a `hooker_success_message`
attribute that no code ever defines. -/
structure HookerCfg where
  hooker_mod_enabled : Bool
  hooker_free_mins : ℚ
  hooker_paid_mins : ℚ
  hooker_coins_per_paid : ℚ
  hooker_payment_wait_time : ℚ
  hooker_warning_message : String
  hooker_hiwaifu_message : String
deriving DecidableEq, Repr

/-- The external inputs of one `_handle_hooker_logic` tick: whether the
`amount_area` region is configured, and the two numeric-OCR readings the tick
may take (the baseline capture at the transition into WAITING_PAYMENT, and the
payment-check capture in the WAITING_PAYMENT block). -/
structure HookerEnv where
  amount_area_configured : Bool
  baseline_amount_reading : Int
  current_amount_reading : Int
deriving DecidableEq, Repr

/-- Observable external actions emitted by one `_handle_hooker_logic` tick. -/
inductive HookerEvent
  /-- The configured warning message was sent to the game (bot.py 903-904). -/
  | warningSent
  /-- `_close_partnership` was invoked (bot.py 918, 926, 977): its click steps
  run, though its state mutations do not (see `closePartnership`). -/
  | partnershipClosed
  /-- The PAID branch read `self.hooker_success_message` (bot.py 954), an
  attribute that is never defined anywhere (bot_settings.py defines
  `hooker_hiwaifu_message` instead), so an `AttributeError` escapes
  `_handle_hooker_logic` after the PAID writes and aborts the rest of the
  tick (it is caught by the main loop's per-tick handler). -/
  | successMessageAttrError
  /-- Still waiting: the slower 2-second poll sleep (bot.py 973). -/
  | waitingSleep
deriving DecidableEq, Repr

/-- `remove_nick(nick, "target")` (bot_settings.py 408-422): remove the nick
from the target set if present. -/
def removeTargetNick (nick : String) (s : BotState) : BotState :=
  { s with target_nicks := s.target_nicks.erase nick }

/-- The state-mutation block of `_close_partnership`
(partnership_actions.py 336-365), in source order: prune the current partner
nick if it was auto-added this session (otherwise just forget it), deactivate
the partnership, touch the activity timer, reset the outgoing language to
English if changed, reset the first-message flag, and clear the target,
suggested and auto-added nick sets (the ignore list is kept).  In this
repository the block is dead code — see `closePartnership`. -/
def closePartnershipMutations (now : ℚ) (s : BotState) : BotState :=
  let s :=
    match s.current_partner_nick with
    | some p =>
      if p ∈ s.auto_added_nicks_session then
        { removeTargetNick p s with
            auto_added_nicks_session := s.auto_added_nicks_session.erase p
            current_partner_nick := none }
      else { s with current_partner_nick := none }
    | none => s
  let s := { s with partnership_active := false, last_message_time := now }
  let s :=
    if s.current_language ≠ "en" then { s with current_language := "en" } else s
  { s with
      first_message_sent := false
      target_nicks := []
      suggested_nicks := []
      auto_added_nicks_session := [] }

/-- Whether the bot's UI object exposes a `gemini_manager` attribute.  In this
repository it does not: `ChatBotUI` (ui_main.py 41) builds an
`ollama_manager` (ui_main.py 102) and never a `gemini_manager`; the only
class with that attribute, `GeminiUI` (ui_gemini.py 14-21), is never
instantiated, and no mixin defines `__getattr__`. -/
def uiHasGeminiManager : Bool := false

/-- `_close_partnership` (partnership_actions.py 261-370).  Its whole body is
one `try/except`: the click steps (261-329) touch none of the modeled fields,
then line 332 evaluates `self.ui.gemini_manager.clear_history()` — if the UI
has a `gemini_manager` the mutation block (336-365) runs, otherwise the
`AttributeError` is caught by the function's own `except` (369-370) and the
function returns with no state change.  The environment is made explicit
through `geminiPresent`; `uiHasGeminiManager` pins this repository's case,
in which teardown is the identity on the modeled state. -/
def closePartnership (geminiPresent : Bool) (now : ℚ) (s : BotState) : BotState :=
  if geminiPresent then closePartnershipMutations now s else s

/-- `_initialize_hooker_session` (bot.py 242-249): enter FREE with
`timer_end = now + free_mins*60` when the feature is enabled, otherwise phase
`None`. -/
def initializeHookerSession (cfg : HookerCfg) (now : ℚ) (s : BotState) : BotState :=
  if cfg.hooker_mod_enabled then
    { s with
        hooker_current_state := some .FREE
        hooker_timer_end := now + cfg.hooker_free_mins * 60 }
  else { s with hooker_current_state := none }

/-- The `WAITING_PAYMENT` block of `_handle_hooker_logic` (bot.py 922-979):
timeout forces a close (whose mutations abort, see `closePartnership`)
followed by an explicit phase reset; a higher amount reading than the
baseline is a payment, adding `(paid / coins_per_paid) * paid_mins` minutes
(or `paid_mins` if `coins_per_paid ≤ 0`) to the timer and entering PAID —
after which bot.py 954 reads the never-defined `hooker_success_message`
attribute and the `AttributeError` aborts the rest of the tick, so no success
notification is ever dispatched; an unchanged amount keeps waiting at a
slower poll; a missing amount region forces a close. -/
def waitingPaymentBlock (geminiPresent : Bool) (cfg : HookerCfg) (env : HookerEnv)
    (now : ℚ) (s : BotState) (evs : List HookerEvent) : BotState × List HookerEvent :=
  if s.hooker_current_state = some .WAITING_PAYMENT then
    if now - s.hooker_wait_start_time > cfg.hooker_payment_wait_time then
      ({ closePartnership geminiPresent now s with hooker_current_state := none },
        evs ++ [.partnershipClosed])
    else if env.amount_area_configured then
      if env.current_amount_reading > s.hooker_initial_amount then
        let paid : ℚ := ((env.current_amount_reading - s.hooker_initial_amount : Int) : ℚ)
        let extra_mins : ℚ :=
          if cfg.hooker_coins_per_paid > 0 then
            (paid / cfg.hooker_coins_per_paid) * cfg.hooker_paid_mins
          else cfg.hooker_paid_mins
        ({ s with
            hooker_current_state := some .PAID
            hooker_timer_end := now + extra_mins * 60 },
          evs ++ [.successMessageAttrError])
      else (s, evs ++ [.waitingSleep])
    else
      ({ closePartnership geminiPresent now s with hooker_current_state := none },
        evs ++ [.partnershipClosed])
  else (s, evs)

/-- One tick of `_handle_hooker_logic` (bot.py 888-979).  Disabled feature or
inactive partnership: immediate return with no effect (bot.py 895-896 uses
`getattr(self, 'hooker_mod_enabled', False)`, so the guard itself cannot
raise).  A FREE/PAID phase whose timer expired sends the configured warning,
enters WAITING_PAYMENT and captures the baseline amount (or force-closes if
the amount region is unconfigured); then the WAITING_PAYMENT block runs in
the same tick. -/
def handleHookerLogic (geminiPresent : Bool) (cfg : HookerCfg) (env : HookerEnv)
    (now : ℚ) (s : BotState) : BotState × List HookerEvent :=
  if cfg.hooker_mod_enabled = false ∨ s.partnership_active = false then (s, [])
  else
    if (s.hooker_current_state = some .FREE ∨ s.hooker_current_state = some .PAID)
        ∧ now ≥ s.hooker_timer_end then
      let evs := if cfg.hooker_warning_message ≠ "" then [HookerEvent.warningSent] else []
      let s := { s with
                  hooker_current_state := some .WAITING_PAYMENT
                  hooker_wait_start_time := now }
      if env.amount_area_configured then
        waitingPaymentBlock geminiPresent cfg env now
          { s with hooker_initial_amount := env.baseline_amount_reading } evs
      else
        ({ closePartnership geminiPresent now s with hooker_current_state := none },
          evs ++ [.partnershipClosed])
    else waitingPaymentBlock geminiPresent cfg env now s []

/-- The partnership-presence branch of `_main_loop` when the close button is
found (bot.py 704-709): a newly detected partnership activates the state and
initializes the payment session. -/
def presenceFound (cfg : HookerCfg) (now : ℚ) (s : BotState) : BotState :=
  if s.partnership_active = false then
    initializeHookerSession cfg now
      { s with partnership_active := true, last_message_time := now }
  else s

/-- The partnership-presence branch when the close button is no longer found
(bot.py 710-714): it only invokes `_close_partnership` — in this repository
that call performs no state mutation (see `closePartnership`), so this path
leaves every modeled field unchanged: `partnership_active` stays true and
`hooker_current_state` is untouched. -/
def presenceLost (geminiPresent : Bool) (now : ℚ) (s : BotState) : BotState :=
  if s.partnership_active then closePartnership geminiPresent now s else s

/-- The partnership-presence exception branch (bot.py 717-723):
`_close_partnership` (no state mutation in this repository) followed by an
explicit `self.hooker_current_state = None` (bot.py 722), which does
execute. -/
def presenceCheckError (geminiPresent : Bool) (now : ℚ) (s : BotState) : BotState :=
  if s.partnership_active then
    { closePartnership geminiPresent now s with hooker_current_state := none }
  else s

/-- The memory-cleanup effect of `stop_bot` (bot.py 356-361), reached
whenever the bot is stopped while running (`_destroy_overlay` at bot.py 353
is a no-op unless an overlay window exists): clear the target, suggested and
auto-added sets, forget the partner, deactivate the partnership — and leave
`hooker_current_state` untouched.  The `bot_running`/thread fields are
outside the modeled state. -/
def stopBotCleanup (s : BotState) : BotState :=
  { s with
      target_nicks := []
      suggested_nicks := []
      auto_added_nicks_session := []
      current_partner_nick := none
      partnership_active := false }

/-- The states of the partnership/payment fields reachable from `start_bot`
through the `_main_loop` presence handling, the payment tick, explicit
partnership closes and the stop-bot cleanup, for arbitrary tick times,
configurations and OCR readings — all teardown paths taken with this
repository's missing `gemini_manager` (`uiHasGeminiManager`). -/
inductive ReachableBotState : BotState → Prop
  | init : ReachableBotState initialBotState
  | found (cfg : HookerCfg) (now : ℚ) {s : BotState} :
      ReachableBotState s → ReachableBotState (presenceFound cfg now s)
  | lost (now : ℚ) {s : BotState} :
      ReachableBotState s → ReachableBotState (presenceLost uiHasGeminiManager now s)
  | lostErr (now : ℚ) {s : BotState} :
      ReachableBotState s → ReachableBotState (presenceCheckError uiHasGeminiManager now s)
  | tick (cfg : HookerCfg) (env : HookerEnv) (now : ℚ) {s : BotState} :
      ReachableBotState s →
        ReachableBotState (handleHookerLogic uiHasGeminiManager cfg env now s).1
  | close (now : ℚ) {s : BotState} :
      ReachableBotState s → ReachableBotState (closePartnership uiHasGeminiManager now s)
  | stop {s : BotState} :
      ReachableBotState s → ReachableBotState (stopBotCleanup s)

/-- A Hooker-Mod configuration with the feature enabled (10 free minutes,
600 coins per 30 paid minutes, 300s payment wait). -/
def demoHookerCfg : HookerCfg :=
  { hooker_mod_enabled := true
    hooker_free_mins := 10
    hooker_paid_mins := 30
    hooker_coins_per_paid := 600
    hooker_payment_wait_time := 300
    hooker_warning_message := "pay up"
    hooker_hiwaifu_message := "thank you" }

/-- Reachable state violating the C4 invariant: partnership found (payment
session enters FREE), then the bot is stopped — `stop_bot`'s cleanup
deactivates the partnership without resetting the payment phase (and the
teardown paths could not produce an inactive partnership at all, since
`_close_partnership` aborts before its mutations). -/
def hookerStalePhaseState : BotState :=
  stopBotCleanup (presenceFound demoHookerCfg 0 initialBotState)

/-- An active partnership whose partner nick `bob` was auto-added this
session (and is in the target set), next to a manually added `alice`. -/
def autoAddedPartnerState : BotState :=
  { initialBotState with
      partnership_active := true
      current_partner_nick := some "bob"
      auto_added_nicks_session := ["bob"]
      target_nicks := ["bob", "alice"] }

/-- A bot state holding one manually-added (not auto-added) target nick during
an active partnership. -/
def manualTargetState : BotState :=
  { initialBotState with
      partnership_active := true
      target_nicks := ["alice"] }

/-- `demoHookerCfg` with the feature switched off. -/
def disabledHookerCfg : HookerCfg :=
  { demoHookerCfg with hooker_mod_enabled := false }

/-- A payment-tick environment: amount region configured, baseline reading 0,
current reading 300 (a 300-coin payment). -/
def demoPaymentEnv : HookerEnv :=
  { amount_area_configured := true
    baseline_amount_reading := 0
    current_amount_reading := 300 }

/-- An active partnership waiting for payment since time 0 with baseline 0. -/
def demoWaitingState : BotState :=
  { initialBotState with
      partnership_active := true
      hooker_current_state := some .WAITING_PAYMENT
      hooker_wait_start_time := 0
      hooker_initial_amount := 0 }

/-! ## Orchestrator crash recovery (`ChatBot._bot_loop`, bot.py 661-683) -/

/-- Outcome of one `_main_loop` run as seen by `_bot_loop`: it either returns
normally or raises an exception; in both cases the bot state (here abstract)
has been updated. -/
inductive TickOutcome (σ : Type) : Type
  | ok (s : σ)
  | exc (s : σ)
deriving DecidableEq

/-- An abstract orchestrator: a running flag over an abstract state, and the
effect of one `_main_loop` run. -/
structure LoopModel (σ : Type) where
  running : σ → Bool
  tick : σ → TickOutcome σ

/-- Observable events of `_bot_loop`'s recovery path. -/
inductive LoopEvent
  /-- The final `"Bot loop finished."` log (bot.py 683). -/
  | finishedLogged
  /-- The `"Loop error: ... Restarting in 5s..."` log (bot.py 678). -/
  | errorLogged
  /-- The `traceback.format_exc()` log (bot.py 679-680). -/
  | traceLogged
  /-- The `await asyncio.sleep(5)` recovery pause (bot.py 681). -/
  | slept5
deriving DecidableEq, Repr

/-- `_bot_loop` (bot.py 669-683) with explicit fuel: while the running flag is
set, run a tick; on an exception, break out immediately if the flag was
cleared during the tick (`if not self.bot_running: break`), otherwise log the
error with its stack trace, sleep 5 seconds and restart.  Returns the final
state (`none` when the fuel ran out with the loop still going) and the emitted
events in order. -/
def botLoop {σ : Type} (M : LoopModel σ) : Nat → σ → Option σ × List LoopEvent
  | 0, _ => (none, [])
  | fuel+1, s =>
    if M.running s = false then (some s, [.finishedLogged])
    else
      match M.tick s with
      | .ok s' => botLoop M fuel s'
      | .exc s' =>
        if M.running s' = false then (some s', [.finishedLogged])
        else
          let r := botLoop M fuel s'
          (r.1, .errorLogged :: .traceLogged :: .slept5 :: r.2)

/-- A loop model whose state is the running flag itself and whose tick always
raises after clearing the flag (an exception in the same tick as a manual
stop). -/
def stopDuringExcModel : LoopModel Bool :=
  { running := fun s => s, tick := fun _ => .exc false }

/-- A loop model whose tick always raises with the flag left set. -/
def alwaysRaiseModel : LoopModel Bool :=
  { running := fun s => s, tick := fun _ => .exc true }

/-- A language-detection oracle modelling `langdetect` raising
`LangDetectException` on every input (never consulted by the claims below). -/
def nullLangOracle : String → Option (List (String × ℚ)) := fun _ => none

/-- The initial `dedup` scenario processor: empty window, `alice` targeted. -/
def dedupStart : ProcState := mkProcState [] ["alice"]

/-- The processor state after ingesting `"Alice: hello"` once at time 0. -/
def dedupAfterFirst : ProcState :=
  { ignore_nicks := []
    target_nicks := ["alice"]
    all_known_nicks := ["alice"]
    last_messages := [("alice:hello", 0)] }

end ChatBotCore

namespace ChatBotCore

/-! ## Theorems -/

/-- Invariant of the `_fuzzy_match_nick` candidate scan: starting the fold at
accumulator `b`, either no candidate beat `b.1` and the accumulator is
returned unchanged, or the result holds a member whose ratio is the running
maximum, strictly above `b.1` and at least every other candidate's ratio. -/
theorem fuzzyBest_foldl_spec (l : String) (ks : List String) :
    ∀ (b : ℚ × Option String),
    (ks.foldl (fun (best : ℚ × Option String) known =>
        let r := ratioOf l.data known.data
        if r > best.1 then (r, some known) else best) b = b ∧
      ∀ k ∈ ks, ratioOf l.data k.data ≤ b.1) ∨
    (∃ m, (ks.foldl (fun (best : ℚ × Option String) known =>
        let r := ratioOf l.data known.data
        if r > best.1 then (r, some known) else best) b).2 = some m ∧ m ∈ ks ∧
      (ks.foldl (fun (best : ℚ × Option String) known =>
        let r := ratioOf l.data known.data
        if r > best.1 then (r, some known) else best) b).1 = ratioOf l.data m.data ∧
      b.1 < ratioOf l.data m.data ∧
      ∀ k ∈ ks, ratioOf l.data k.data ≤ ratioOf l.data m.data) := by
  induction ks with
  | nil => intro b; left; exact ⟨rfl, by simp⟩
  | cons k ks ih =>
    intro b
    simp only [List.foldl_cons]
    by_cases hr : ratioOf l.data k.data > b.1
    · rw [if_pos hr]
      rcases ih (ratioOf l.data k.data, some k) with ⟨heq, hall⟩ | ⟨m, hm2, hmem, hm1, hlt, hall⟩
      · right
        refine ⟨k, ?_, List.mem_cons_self _ _, ?_, hr, ?_⟩
        · rw [heq]
        · rw [heq]
        · intro k' hk'
          rcases List.mem_cons.1 hk' with h | h
          · subst h; exact le_refl _
          · exact hall k' h
      · right
        refine ⟨m, hm2, List.mem_cons_of_mem _ hmem, hm1, lt_trans hr hlt, ?_⟩
        intro k' hk'
        rcases List.mem_cons.1 hk' with h | h
        · subst h; exact le_of_lt hlt
        · exact hall k' h
    · rw [if_neg hr]
      push_neg at hr
      rcases ih b with ⟨heq, hall⟩ | ⟨m, hm2, hmem, hm1, hlt, hall⟩
      · left
        refine ⟨heq, ?_⟩
        intro k' hk'
        rcases List.mem_cons.1 hk' with h | h
        · subst h; exact hr
        · exact hall k' h
      · right
        refine ⟨m, hm2, List.mem_cons_of_mem _ hmem, hm1, hlt, ?_⟩
        intro k' hk'
        rcases List.mem_cons.1 hk' with h | h
        · subst h; exact le_trans hr (le_of_lt hlt)
        · exact hall k' h

/-- C9: fuzzy nick resolution.  An exact member resolves to itself; otherwise
a resolved nick is a known-set member of maximal similarity ratio with ratio
strictly above `0.7`, and if every member's ratio is at most `0.7` the
resolver returns `none`.  Instances at the threshold: a token of similarity
`5/7 ≈ 0.71` resolves to the known nick (and yields its message through
`get_new_messages`), while a token of similarity `9/13 ≈ 0.69` is not
resolved and lands in the potential-new-nicks set. -/
theorem fuzzy_nick_resolution_threshold :
    (∀ (allKnown : List String) (ocrNick : String),
        pyLowerStr ocrNick ∈ allKnown →
          fuzzyMatchNick allKnown ocrNick = some (pyLowerStr ocrNick)) ∧
    (∀ (allKnown : List String) (ocrNick m : String),
        pyLowerStr ocrNick ∉ allKnown →
        fuzzyMatchNick allKnown ocrNick = some m →
          m ∈ allKnown ∧ 7/10 < ratioOf (pyLowerStr ocrNick).data m.data ∧
          ∀ k ∈ allKnown,
            ratioOf (pyLowerStr ocrNick).data k.data
              ≤ ratioOf (pyLowerStr ocrNick).data m.data) ∧
    (∀ (allKnown : List String) (ocrNick : String),
        pyLowerStr ocrNick ∉ allKnown →
        (∀ k ∈ allKnown, ratioOf (pyLowerStr ocrNick).data k.data ≤ 7/10) →
          fuzzyMatchNick allKnown ocrNick = none) ∧
    (ratioOf ("abcdefg").data ("abcdexy").data = 5/7 ∧
      fuzzyMatchNick ["abcdexy"] "abcdefg" = some "abcdexy" ∧
      (getNewMessages 0 (mkProcState [] ["abcdexy"]) "abcdefg: hi").1
        = [{ author := "abcdexy", message := "hi" }]) ∧
    (ratioOf ("abcdefghiwxyz").data ("abcdefghiqrst").data = 9/13 ∧
      fuzzyMatchNick ["abcdefghiqrst"] "abcdefghiwxyz" = none ∧
      (getNewMessages 0 (mkProcState [] ["abcdefghiqrst"]) "abcdefghiwxyz: hello").1 = [] ∧
      (getNewMessages 0 (mkProcState [] ["abcdefghiqrst"]) "abcdefghiwxyz: hello").2.1
        = ["abcdefghiwxyz"]) := by
  refine ⟨?_, ?_, ?_, ⟨by decide, by decide, by decide⟩, ⟨by decide, by decide, by decide, by decide⟩⟩
  · intro allKnown ocrNick h
    unfold fuzzyMatchNick
    rw [if_pos h]
  · intro allKnown ocrNick m hout heq
    unfold fuzzyMatchNick at heq
    rw [if_neg hout] at heq
    unfold fuzzyBest at heq
    rcases fuzzyBest_foldl_spec (pyLowerStr ocrNick) allKnown ((7 : ℚ)/10, none) with
      ⟨heq', _⟩ | ⟨m', hm2, hmem, _, hlt, hall⟩
    · rw [heq'] at heq
      exact absurd heq (by simp)
    · rw [hm2] at heq
      obtain rfl : m' = m := Option.some.inj heq
      exact ⟨hmem, hlt, hall⟩
  · intro allKnown ocrNick hout hall
    unfold fuzzyMatchNick
    rw [if_neg hout]
    unfold fuzzyBest
    rcases fuzzyBest_foldl_spec (pyLowerStr ocrNick) allKnown ((7 : ℚ)/10, none) with
      ⟨heq', _⟩ | ⟨m', _, hmem, _, hlt, _⟩
    · rw [heq']
    · exact absurd hlt (not_lt.2 (hall m' hmem))

/-- Witness for C9: the threshold clauses applied at the concrete nick
`"abcdefg"` against the known set `["abcdexy"]` (similarity `5/7 > 0.7`). -/
theorem fuzzy_nick_resolution_threshold_witness :
    pyLowerStr "abcdefg" ∉ (["abcdexy"] : List String) ∧
    ("abcdexy" ∈ (["abcdexy"] : List String) ∧
      7/10 < ratioOf (pyLowerStr "abcdefg").data ("abcdexy").data ∧
      ∀ k ∈ (["abcdexy"] : List String),
        ratioOf (pyLowerStr "abcdefg").data k.data
          ≤ ratioOf (pyLowerStr "abcdefg").data ("abcdexy").data) :=
  ⟨by decide,
    fuzzy_nick_resolution_threshold.2.1 ["abcdexy"] "abcdefg" "abcdexy"
      (by decide) (by decide)⟩

/-- C8: end-to-end ingest with ordering.  For the OCR input
`"Alice: hello\nnoise\nBob: hi there"`, target set `{alice, bob}` and an empty
dedup window, `get_new_messages` returns exactly two message records with
authors `alice` and `bob` (the separator-less line `noise` is merged into the
preceding message), and the returned list is the reverse of the order in which
the accepted lines were processed (`alice` first, `bob` second). -/
theorem end_to_end_ingest_reversal :
    (getNewMessages 0 (mkProcState [] ["alice", "bob"])
        "Alice: hello\nnoise\nBob: hi there").1
      = [{ author := "bob", message := "hi there" },
         { author := "alice", message := "hello noise" }] ∧
    ((getNewMessages 0 (mkProcState [] ["alice", "bob"])
        "Alice: hello\nnoise\nBob: hi there").1.map MsgRec.author
      = (["alice", "bob"] : List String).reverse) ∧
    (getNewMessages 0 (mkProcState [] ["alice", "bob"])
        "Alice: hello\nnoise\nBob: hi there").2.1 = [] := by
  refine ⟨by decide, by decide, by decide⟩

/-- C1: dedup idempotence and TTL expiry.  Ingesting `"Alice: hello"` into an
empty window at time 0 yields one message and records its hash at time 0;
re-submitting the identical line while the recorded timestamp is less than
120 seconds old yields no second message (one message total for the two
submissions), and re-submitting it when the recorded timestamp is more than
120 seconds old yields a new message again. -/
theorem dedup_idempotence_and_ttl (t t' : ℚ) (hlt : t < 120) (hgt : 120 < t') :
    getNewMessages 0 dedupStart "Alice: hello"
      = ([{ author := "alice", message := "hello" }], [], dedupAfterFirst) ∧
    (getNewMessages t dedupAfterFirst "Alice: hello").1 = [] ∧
    (getNewMessages t' dedupAfterFirst "Alice: hello").1
      = [{ author := "alice", message := "hello" }] := by
  have hl : splitLinesList (pyStripList ("Alice: hello").data)
      = [("Alice: hello").data] := by decide
  have hcls : classifyLine dedupAfterFirst.all_known_nicks ("Alice: hello").data
      = LineClass.resolved "alice" ("hello").data := by decide
  have hh : makeMessageHash ['a', 'l', 'i', 'c', 'e'] ['h', 'e', 'l', 'l', 'o']
      = "alice:hello" := by decide
  refine ⟨by decide, ?_, ?_⟩
  · have hpr : pruneOld t dedupAfterFirst.last_messages = [("alice:hello", 0)] := by
      show List.filter _ [("alice:hello", 0)] = _
      rw [List.filter_cons, List.filter_nil]
      simp only [sub_zero]
      rw [decide_eq_true hlt]
      rfl
    unfold getNewMessages
    rw [if_neg (by decide), hl]
    dsimp only
    rw [List.foldl_cons, List.foldl_nil]
    unfold stepLine
    rw [hcls]
    dsimp only
    rw [hh, hpr]
    simp
  · have hpr : pruneOld t' dedupAfterFirst.last_messages = [] := by
      show List.filter _ [("alice:hello", 0)] = _
      rw [List.filter_cons, List.filter_nil]
      simp only [sub_zero]
      rw [decide_eq_false (by linarith : ¬(t' < 120))]
      rfl
    unfold getNewMessages
    rw [if_neg (by decide), hl]
    dsimp only
    rw [List.foldl_cons, List.foldl_nil]
    unfold stepLine
    rw [hcls]
    dsimp only
    rw [hh, hpr]
    simp [dedupAfterFirst, appendDeque]

/-- Witness for C1: the TTL bounds discharged at ages 100s (duplicate
suppressed) and 121s (accepted as new). -/
theorem dedup_idempotence_and_ttl_witness :
    ((100 : ℚ) < 120 ∧ (120 : ℚ) < 121) ∧
    (getNewMessages 100 dedupAfterFirst "Alice: hello").1 = [] ∧
    (getNewMessages 121 dedupAfterFirst "Alice: hello").1
      = [{ author := "alice", message := "hello" }] :=
  ⟨⟨by norm_num, by norm_num⟩,
    (dedup_idempotence_and_ttl 100 121 (by norm_num) (by norm_num)).2.1,
    (dedup_idempotence_and_ttl 100 121 (by norm_num) (by norm_num)).2.2⟩

/-- C5: language hysteresis.  The text `"при abcdefg."` has length 12 and a
Cyrillic letter ratio of exactly `3/10` in the cleaned text; starting from
`en`, it is detected as `ru` confidently and the hysteresis wrapper switches
on the very first call.  The text `"el gato"` (no diacritics) is detected as
`es` non-confidently; evaluated twice in a row from `en`, the wrapper keeps
`en` after the first call (pending `es`, counter 1) and switches to `es` only
on the second call.  The statement holds for every `langdetect` oracle since
the fallback step is never reached. -/
theorem language_hysteresis_switching (oracle : String → Option (List (String × ℚ))) :
    (("при abcdefg.").data.length = 12 ∧
      ((((langCleanedText "при abcdefg.").filter isCyrChar).length : ℚ) /
          (((langCleanedText "при abcdefg.").filter (fun c => c ≠ ' ')).length : ℚ)
        = 3/10)) ∧
    detectLanguage oracle "при abcdefg." "en" = ("ru", true) ∧
    (handleLanguageDetection oracle "при abcdefg." {}).current_language = "ru" ∧
    detectLanguage oracle "el gato" "en" = ("es", false) ∧
    ((handleLanguageDetection oracle "el gato" {}).current_language = "en" ∧
      (handleLanguageDetection oracle "el gato" {}).pending_new_language = some "es" ∧
      (handleLanguageDetection oracle "el gato" {}).lang_consistency_counter = 1) ∧
    (handleLanguageDetection oracle "el gato"
        (handleLanguageDetection oracle "el gato" {})).current_language = "es" :=
  ⟨⟨by decide, by decide⟩, rfl, rfl, rfl, ⟨rfl, rfl, rfl⟩, rfl⟩

/-- Witness for C5 at the concrete always-failing `langdetect` oracle. -/
theorem language_hysteresis_switching_witness :
    (handleLanguageDetection nullLangOracle "при abcdefg." {}).current_language = "ru" ∧
    (handleLanguageDetection nullLangOracle "el gato"
        (handleLanguageDetection nullLangOracle "el gato" {})).current_language = "es" :=
  ⟨(language_hysteresis_switching nullLangOracle).2.2.1,
    (language_hysteresis_switching nullLangOracle).2.2.2.2.2⟩

/-- C10: if no summarization request is pending, `process_summarization_result`
leaves the `ChatMemory` state (summary, history, and all counters) entirely
unchanged — it only logs a warning and returns. -/
theorem process_summarization_result_no_pending_is_noop
    (mem : ChatMemory) (text : String)
    (h : mem.pending_summarization = none) :
    ChatMemory.processSummarizationResult text mem = mem := by
  unfold ChatMemory.processSummarizationResult
  rw [h]

/-- Witness for C10: a fresh memory has no pending request, and processing an
arbitrary summary text on it returns it unchanged. -/
theorem process_summarization_result_no_pending_is_noop_witness :
    freshChatMemory.pending_summarization = none ∧
    ChatMemory.processSummarizationResult "Summary: anything" freshChatMemory
      = freshChatMemory :=
  ⟨rfl, process_summarization_result_no_pending_is_noop freshChatMemory "Summary: anything" rfl⟩

/-- C3 counterexample: the teardown does not remove auto-added nicks.  In a
state whose partner `bob` was auto-added to the target set during this
partnership, running the teardown sequence leaves `bob` in the target set:
`_close_partnership` raises `AttributeError` at
`self.ui.gemini_manager.clear_history()` (partnership_actions.py 332;
`ChatBotUI` defines no `gemini_manager`), its own `except` swallows the
error, and the pruning block (336-365) never executes. -/
theorem partnership_teardown_frame_counterexample :
    "bob" ∈ autoAddedPartnerState.auto_added_nicks_session ∧
    "bob" ∈ autoAddedPartnerState.target_nicks ∧
    autoAddedPartnerState.current_partner_nick = some "bob" ∧
    "bob" ∈ (closePartnership uiHasGeminiManager 0 autoAddedPartnerState).target_nicks := by
  refine ⟨by decide, by decide, by decide, by decide⟩

/-- C3 (amended): in this repository the teardown sequence performs no state
change at all — the clear-conversational-history step always raises
`AttributeError` (no `gemini_manager` on the UI) and the function's own
`except` skips the whole mutation block — so no auto-added nick is removed
from the target set, and (vacuously) every target-set entry, auto-added or
not, is still present afterwards.  Had the mutation block been reachable, it
would have cleared the entire target set (not merely pruned the auto-added
nicks), keeping only the ignore list. -/
theorem partnership_teardown_is_noop (now : ℚ) (s : BotState) :
    closePartnership uiHasGeminiManager now s = s ∧
    (∀ n ∈ s.target_nicks,
        n ∈ (closePartnership uiHasGeminiManager now s).target_nicks) ∧
    (closePartnershipMutations now s).target_nicks = [] ∧
    (closePartnershipMutations now s).ignore_nicks = s.ignore_nicks := by
  refine ⟨rfl, fun n hn => hn, ?_, ?_⟩ <;>
    rcases hp : s.current_partner_nick with _ | p <;>
      simp only [closePartnershipMutations, removeTargetNick, hp] <;>
      split_ifs <;> simp

/-- Witness for C3 (amended) at the concrete auto-added-partner state. -/
theorem partnership_teardown_is_noop_witness :
    closePartnership uiHasGeminiManager 0 autoAddedPartnerState
      = autoAddedPartnerState ∧
    (closePartnershipMutations 0 autoAddedPartnerState).target_nicks = [] :=
  ⟨(partnership_teardown_is_noop 0 autoAddedPartnerState).1,
    (partnership_teardown_is_noop 0 autoAddedPartnerState).2.2.1⟩

/-- C4 counterexample: the payment-phase invariant fails on a reachable state.
From the start state, a partnership is found (payment session enters FREE),
then the bot is stopped: `stop_bot`'s cleanup (bot.py 356-361) deactivates the
partnership without resetting `hooker_current_state`, leaving phase FREE with
the partnership inactive.  (The teardown paths themselves never even
deactivate the partnership, since `_close_partnership` aborts at
partnership_actions.py 332 before its mutations.) -/
theorem payment_phase_invariant_counterexample :
    ReachableBotState hookerStalePhaseState ∧
    hookerStalePhaseState.partnership_active = false ∧
    hookerStalePhaseState.hooker_current_state = some HookerPhase.FREE := by
  refine ⟨?_, by decide, by decide⟩
  exact ReachableBotState.stop
    (ReachableBotState.found demoHookerCfg 0 ReachableBotState.init)

/-- C4 (amended): the payment phase is protected by guards rather than by an
invariant.  One tick of the payment logic makes no state change and emits no
action when the partnership is inactive or the feature is disabled; session
initialization with the feature disabled sets the phase to NONE; the
exception-path presence check resets the phase to NONE (bot.py 722); and the
payment logic's own timeout teardown resets the phase to NONE (bot.py 928) —
but partnership teardown itself resets neither the phase nor even the active
flag (it aborts before its mutations), and the stop-bot cleanup deactivates
the partnership leaving the phase untouched, so "inactive or disabled ⇒ phase
NONE" does not hold in every reachable state. -/
theorem payment_phase_reset_guards :
    (∀ (gp : Bool) (cfg : HookerCfg) (env : HookerEnv) (now : ℚ) (s : BotState),
        cfg.hooker_mod_enabled = false ∨ s.partnership_active = false →
          handleHookerLogic gp cfg env now s = (s, [])) ∧
    (∀ (cfg : HookerCfg) (now : ℚ) (s : BotState),
        cfg.hooker_mod_enabled = false →
          (initializeHookerSession cfg now s).hooker_current_state = none) ∧
    (∀ (gp : Bool) (now : ℚ) (s : BotState),
        s.partnership_active = true →
          (presenceCheckError gp now s).hooker_current_state = none) ∧
    (∀ (gp : Bool) (cfg : HookerCfg) (env : HookerEnv) (now : ℚ) (s : BotState),
        cfg.hooker_mod_enabled = true → s.partnership_active = true →
        s.hooker_current_state = some HookerPhase.WAITING_PAYMENT →
        now - s.hooker_wait_start_time > cfg.hooker_payment_wait_time →
          (handleHookerLogic gp cfg env now s).1.hooker_current_state = none) := by
  refine ⟨?_, ?_, ?_, ?_⟩
  · intro gp cfg env now s h
    unfold handleHookerLogic
    rw [if_pos h]
  · intro cfg now s h
    simp [initializeHookerSession, h]
  · intro gp now s h
    simp [presenceCheckError, h]
  · intro gp cfg env now s h1 h2 h3 h4
    unfold handleHookerLogic
    rw [if_neg (by simp [h1, h2])]
    rw [if_neg (by simp [h3])]
    unfold waitingPaymentBlock
    rw [if_pos h3, if_pos h4]

/-- Witness for C4 (amended): the guards applied at concrete states — a
disabled-feature tick is a no-op, disabled session init yields phase NONE, the
exception-path presence check yields phase NONE, and a timed-out waiting
state is reset to phase NONE by its own tick. -/
theorem payment_phase_reset_guards_witness :
    handleHookerLogic uiHasGeminiManager disabledHookerCfg demoPaymentEnv 0 initialBotState
      = (initialBotState, []) ∧
    (initializeHookerSession disabledHookerCfg 0 initialBotState).hooker_current_state
      = none ∧
    (presenceCheckError uiHasGeminiManager 0 manualTargetState).hooker_current_state
      = none ∧
    (handleHookerLogic uiHasGeminiManager demoHookerCfg demoPaymentEnv 1000
        demoWaitingState).1.hooker_current_state = none :=
  ⟨payment_phase_reset_guards.1 uiHasGeminiManager disabledHookerCfg demoPaymentEnv 0
      initialBotState (Or.inl rfl),
    payment_phase_reset_guards.2.1 disabledHookerCfg 0 initialBotState rfl,
    payment_phase_reset_guards.2.2.1 uiHasGeminiManager 0 manualTargetState rfl,
    payment_phase_reset_guards.2.2.2 uiHasGeminiManager demoHookerCfg demoPaymentEnv 1000
      demoWaitingState rfl rfl rfl
      (by norm_num [demoWaitingState, demoHookerCfg, initialBotState])⟩

/-- C6: payment arithmetic of the WAITING_PAYMENT → PAID transition.  With the
feature enabled, an active partnership waiting for payment (not timed out,
amount region configured) and a reading above the baseline, the tick enters
PAID with `timer_end = now + extra_mins*60` where
`extra_mins = (paid / coins_per_paid) * paid_mins` if `coins_per_paid > 0` and
`paid_mins` otherwise; in particular `coins_per_paid = 600`,
`paid_mins = 30`, `paid = 300` gives `extra_mins = 15`. -/
theorem payment_transition_arithmetic (gp : Bool) (cfg : HookerCfg) (env : HookerEnv)
    (now : ℚ) (s : BotState)
    (h1 : cfg.hooker_mod_enabled = true)
    (h2 : s.partnership_active = true)
    (h3 : s.hooker_current_state = some HookerPhase.WAITING_PAYMENT)
    (h4 : ¬(now - s.hooker_wait_start_time > cfg.hooker_payment_wait_time))
    (h5 : env.amount_area_configured = true)
    (h6 : s.hooker_initial_amount < env.current_amount_reading) :
    (handleHookerLogic gp cfg env now s).1.hooker_current_state
      = some HookerPhase.PAID ∧
    (handleHookerLogic gp cfg env now s).1.hooker_timer_end
      = now + (if cfg.hooker_coins_per_paid > 0 then
            (((env.current_amount_reading - s.hooker_initial_amount : Int) : ℚ) /
                cfg.hooker_coins_per_paid) * cfg.hooker_paid_mins
          else cfg.hooker_paid_mins) * 60 ∧
    (cfg.hooker_coins_per_paid = 600 → cfg.hooker_paid_mins = 30 →
      ((env.current_amount_reading - s.hooker_initial_amount : Int) : ℚ) = 300 →
      (if cfg.hooker_coins_per_paid > 0 then
          (((env.current_amount_reading - s.hooker_initial_amount : Int) : ℚ) /
              cfg.hooker_coins_per_paid) * cfg.hooker_paid_mins
        else cfg.hooker_paid_mins) = 15) := by
  have hmain : handleHookerLogic gp cfg env now s
      = ({ s with
            hooker_current_state := some HookerPhase.PAID
            hooker_timer_end := now + (if cfg.hooker_coins_per_paid > 0 then
                (((env.current_amount_reading - s.hooker_initial_amount : Int) : ℚ) /
                    cfg.hooker_coins_per_paid) * cfg.hooker_paid_mins
              else cfg.hooker_paid_mins) * 60 },
          [.successMessageAttrError]) := by
    unfold handleHookerLogic
    rw [if_neg (by simp [h1, h2])]
    rw [if_neg (by simp [h3])]
    unfold waitingPaymentBlock
    rw [if_pos h3, if_neg h4, if_pos h5, if_pos h6]
    simp
  refine ⟨by rw [hmain], by rw [hmain], ?_⟩
  intro hc hp hpaid
  rw [hpaid, hc, hp]
  norm_num

/-- Witness for C6: a 300-coin payment at time 100 on a session waiting since
time 0 with a 300-second allowance, at the 600-coins-per-30-minutes
configuration: the tick enters PAID and the timer lands at
`100 + 15*60 = 1000`. -/
theorem payment_transition_arithmetic_witness :
    (handleHookerLogic uiHasGeminiManager demoHookerCfg demoPaymentEnv 100
        demoWaitingState).1.hooker_current_state = some HookerPhase.PAID ∧
    (handleHookerLogic uiHasGeminiManager demoHookerCfg demoPaymentEnv 100
        demoWaitingState).1.hooker_timer_end = 1000 := by
  have h := payment_transition_arithmetic uiHasGeminiManager demoHookerCfg demoPaymentEnv
    100 demoWaitingState
    rfl rfl rfl (by norm_num [demoWaitingState, demoHookerCfg, initialBotState]) rfl
    (by norm_num [demoWaitingState, demoPaymentEnv, initialBotState])
  refine ⟨h.1, ?_⟩
  rw [h.2.1]
  norm_num [demoHookerCfg, demoPaymentEnv, demoWaitingState, initialBotState]

/-- C7 counterexample: not every exception caught by the orchestrator loop is
logged and followed by the 5-second sleep and a restart.  In the model whose
tick raises an exception after the running flag was cleared (a manual stop
during the failing tick), the loop catches the exception and exits at once:
no error log, no stack trace, no 5-second sleep, no restart. -/
theorem loop_exception_break_without_logging :
    stopDuringExcModel.tick true = TickOutcome.exc false ∧
    botLoop stopDuringExcModel 5 true = (some false, [LoopEvent.finishedLogged]) ∧
    LoopEvent.errorLogged ∉ (botLoop stopDuringExcModel 5 true).2 ∧
    LoopEvent.slept5 ∉ (botLoop stopDuringExcModel 5 true).2 := by
  refine ⟨by decide, by decide, by decide, by decide⟩

/-- C7 (amended): whenever `_bot_loop` exits, the running flag of the final
state is false (the loop never terminates because of an exception alone); and
an exception caught while the running flag is still true is logged with its
stack trace, followed by the 5-second sleep, after which the loop restarts on
the post-exception state.  If the flag is already false when the exception is
caught, the loop exits immediately without the log and sleep. -/
theorem loop_crash_recovery {σ : Type} (M : LoopModel σ) :
    (∀ (fuel : Nat) (s r : σ) (evs : List LoopEvent),
        botLoop M fuel s = (some r, evs) → M.running r = false) ∧
    (∀ (fuel : Nat) (s s' : σ),
        M.running s = true → M.tick s = TickOutcome.exc s' → M.running s' = true →
          botLoop M (fuel + 1) s
            = ((botLoop M fuel s').1,
                LoopEvent.errorLogged :: LoopEvent.traceLogged :: LoopEvent.slept5 ::
                  (botLoop M fuel s').2)) := by
  constructor
  · intro fuel
    induction fuel with
    | zero =>
      intro s r evs h
      exact absurd (congrArg Prod.fst h) (by simp [botLoop])
    | succ n ih =>
      intro s r evs h
      unfold botLoop at h
      by_cases hr : M.running s = false
      · rw [if_pos hr] at h
        injection h with h1 h2
        injection h1 with h1
        subst h1
        exact hr
      · rw [if_neg hr] at h
        cases htick : M.tick s with
        | ok s' =>
          rw [htick] at h
          dsimp only at h
          exact ih s' r evs h
        | exc s' =>
          rw [htick] at h
          dsimp only at h
          by_cases hr' : M.running s' = false
          · rw [if_pos hr'] at h
            injection h with h1 h2
            injection h1 with h1
            subst h1
            exact hr'
          · rw [if_neg hr'] at h
            injection h with h1 h2
            rcases hbl : botLoop M n s' with ⟨o, evts⟩
            rw [hbl] at h1
            exact ih s' r evts (hbl.trans (Prod.ext h1 rfl))
  · intro fuel s s' h1 h2 h3
    show (if M.running s = false then (some s, [LoopEvent.finishedLogged])
        else match M.tick s with
          | .ok s'' => botLoop M fuel s''
          | .exc s'' =>
            if M.running s'' = false then (some s'', [LoopEvent.finishedLogged])
            else ((botLoop M fuel s'').1,
              LoopEvent.errorLogged :: LoopEvent.traceLogged :: LoopEvent.slept5 ::
                (botLoop M fuel s'').2))
      = ((botLoop M fuel s').1,
          LoopEvent.errorLogged :: LoopEvent.traceLogged :: LoopEvent.slept5 ::
            (botLoop M fuel s').2)
    rw [if_neg (by simp [h1]), h2]
    show (if M.running s' = false then (some s', [LoopEvent.finishedLogged])
        else ((botLoop M fuel s').1,
          LoopEvent.errorLogged :: LoopEvent.traceLogged :: LoopEvent.slept5 ::
            (botLoop M fuel s').2))
      = ((botLoop M fuel s').1,
          LoopEvent.errorLogged :: LoopEvent.traceLogged :: LoopEvent.slept5 ::
            (botLoop M fuel s').2)
    rw [if_neg (by simp [h3])]

/-- Witness for C7 (amended): in the model whose tick always raises with the
flag left set, one loop step produces exactly the error log, the stack-trace
log and the 5-second sleep in front of the recursive run. -/
theorem loop_crash_recovery_witness :
    alwaysRaiseModel.running true = true ∧
    alwaysRaiseModel.tick true = TickOutcome.exc true ∧
    botLoop alwaysRaiseModel 1 true
      = ((botLoop alwaysRaiseModel 0 true).1,
          LoopEvent.errorLogged :: LoopEvent.traceLogged :: LoopEvent.slept5 ::
            (botLoop alwaysRaiseModel 0 true).2) :=
  ⟨rfl, rfl, (loop_crash_recovery alwaysRaiseModel).2 0 true true rfl rfl rfl⟩

/-- C2 counterexample: the claim asserts that while a summarization request is
outstanding (pending, not yet processed), no further `add_message` creates a
second pending summarization.  After 20 `add_message` calls a request is
pending; 8 further `add_message` calls (28 in total, with
`process_summarization_result` never called) fire a second summarization
trigger (`summaries_created = 2`) which replaces the still-outstanding pending
request with a different one. -/
theorem second_summarization_fires_while_pending :
    (addMany 20 freshChatMemory).pending_summarization.isSome = true ∧
    (addMany 20 freshChatMemory).summaries_created = 1 ∧
    (addMany 28 freshChatMemory).summaries_created = 2 ∧
    (addMany 28 freshChatMemory).pending_summarization
      ≠ (addMany 20 freshChatMemory).pending_summarization := by
  refine ⟨by decide, by decide, by decide, by decide⟩

/-- C2 (amended): with `recent_limit = 12` and `summary_trigger_limit = 20`,
after the 20th `add_message` exactly the 8 oldest messages are placed in the
single pending summarization request (its prompt is built from them and its
count is 8) and the history length becomes 12; the pending slot holds at most
one request at a time, and the seven following `add_message` calls (up to the
27th) neither fire a new summarization nor alter the pending request; however
if the request is never processed, the 28th `add_message` fires a second
summarization that overwrites the outstanding request (it is not prevented). -/
theorem summarization_trigger_behaviour :
    (addMany 20 freshChatMemory).pending_summarization = some
      { prompt := ChatMemory.createSummarizationPrompt
          (ChatMemory.formatMessagesForSummarization ((List.range 8).map nthUserMessage))
        old_messages_count := 8
        remaining_messages := ChatMemory.markFirstTrigger
          (((List.range 20).map nthUserMessage).drop 8) } ∧
    (addMany 20 freshChatMemory).history.length = 12 ∧
    (addMany 20 freshChatMemory).summaries_created = 1 ∧
    ((addMany 27 freshChatMemory).summaries_created = 1 ∧
      (addMany 27 freshChatMemory).pending_summarization
        = (addMany 20 freshChatMemory).pending_summarization) ∧
    (addMany 28 freshChatMemory).summaries_created = 2 := by
  refine ⟨by decide, by decide, by decide, ⟨by decide, by decide⟩, by decide⟩

end ChatBotCore
